import Mathlib

/-
  Verification development for the mercure DICOM routing and processing
  orchestrator.  The definitions below are a shallow embedding of the Python
  source under app/: pure control flow is translated function by function,
  filesystem and container side effects become explicit event lists, and the
  ambient clock becomes a Nat parameter (seconds).  Each definition carries a
  comment naming the source function and lines it embeds.
-/

namespace Mercure

/-- JSON-like primitive values, as they appear in the free-form module
settings map and in task documents.  Composite values are not needed by the
properties below, so arrays and objects are omitted; settings values consulted
by the embedded code are all primitives. -/
inductive JVal where
  | null
  | bool (b : Bool)
  | num (n : Int)
  | str (s : String)
deriving DecidableEq, Repr

/-- Python truthiness of a JSON primitive: None, False, 0 and the empty
string are falsy, everything else is truthy. -/
def jTruthy : JVal → Bool
  | JVal.null => false
  | JVal.bool b => b
  | JVal.num n => n != 0
  | JVal.str s => s ≠ ""

/-- Python equality of a JSON value against a string literal: only the equal
string compares equal (no cross-type coercion for strings). -/
def jIsStr : JVal → String → Bool
  | JVal.str s, t => s == t
  | _, _ => false

/-- dict.get(key, default) on a settings map represented as an
association list (first occurrence wins, like a Python dict with unique
keys). -/
def settingsGet (s : List (String × JVal)) (key : String) (dflt : JVal) : JVal :=
  match s.lookup key with
  | some v => v
  | none => dflt

/-- Module configuration, restricted to the fields that the embedded
functions read (common.types.Module). -/
structure Module where
  docker_tag : Option String
  settings : Option (List (String × JVal)) := none
  requires_persistence : Bool := false
  requires_root : Bool := false
deriving Repr

/-- Which container a docker run corresponds to in process_series.py. -/
inductive ContainerKind where
  /-- The probe that runs the module image with command
  cat /etc/monai/app.json to detect a MONAI app manifest
  (process_series.py line 271). -/
  | manifestProbe
  /-- The containerized cosign signature verifier
  (process_series.py line 148). -/
  | verifier
  /-- The processing module itself (process_series.py line 529). -/
  | processing
  /-- The busybox helper that chowns the output directory
  (process_series.py line 579). -/
  | chownHelper
deriving DecidableEq, Repr

/-- Externally visible docker actions initiated by the embedded code. -/
inductive Event where
  /-- An image pull was initiated for the given tag. -/
  | pullImage (tag : String)
  /-- A container was started from the given image. -/
  | runContainer (image : String) (kind : ContainerKind)
deriving DecidableEq, Repr

/-- Environment behavior relevant to verify_container_signature:
whether the cosign image can be obtained, whether running the verifier
fails with a generic error, and the exit code the verifier returns. -/
structure CosignWorld where
  cosign_image_available : Bool := true
  cosign_run_error : Bool := false
  cosign_exit_code : Nat := 0
deriving Repr

/-- Result of verify_container_signature: the Python return value, with
Except.error standing for an exception escaping the function, together
with the docker actions performed. -/
structure VerifyResult where
  outcome : Except Unit Bool
  events : List Event
deriving Repr

/-- Embeds verify_container_signature (process_series.py lines 91-184).
The settings are consulted through Python truthiness (an absent or empty
settings map yields all defaults); require_signature is normalized by the
chain at lines 117-120; a required signature with missing certificate
identity or OIDC issuer fails before any container runs; otherwise the
cosign image is pulled and the verifier container is run, an unavailable
cosign image raises, a generic failure returns False, and the exit code
decides the result. -/
def verify_container_signature (docker_tag : String) (m : Module)
    (w : CosignWorld) : VerifyResult :=
  let s? : Option (List (String × JVal)) :=
    match m.settings with
    | some s => if s.isEmpty then none else some s
    | none => none
  let cert_identity :=
    match s? with
    | some s => settingsGet s "signature_certificate_identity" (JVal.str "")
    | none => JVal.str ""
  let cert_oidc_issuer :=
    match s? with
    | some s => settingsGet s "signature_certificate_oidc_issuer" (JVal.str "")
    | none => JVal.str ""
  let rs_raw :=
    match s? with
    | some s => settingsGet s "require_signature" (JVal.bool false)
    | none => JVal.bool false
  let require_signature :=
    if jIsStr rs_raw "0" || jIsStr rs_raw "false" || jIsStr rs_raw "False"
        || !(jTruthy rs_raw) then false else true
  if !require_signature then
    { outcome := Except.ok true, events := [] }
  else if !(jTruthy cert_identity) || !(jTruthy cert_oidc_issuer) then
    { outcome := Except.ok false, events := [] }
  else
    let pullEv := Event.pullImage "chainguard/cosign:latest"
    if !w.cosign_image_available then
      -- docker.errors.NotFound while starting the verifier: re-raised as an
      -- exception (line 175); the pull attempt has already been made.
      { outcome := Except.error (), events := [pullEv] }
    else
      let evs := [pullEv, Event.runContainer "chainguard/cosign:latest" ContainerKind.verifier]
      if w.cosign_run_error then
        { outcome := Except.ok false, events := evs }
      else if w.cosign_exit_code == 0 then
        { outcome := Except.ok true, events := evs }
      else
        { outcome := Except.ok false, events := evs }

/-- The process-global image pull throttle map docker_pull_throttle
(process_series.py line 88): tag to time of last recorded pull, seconds. -/
def ThrottleMap := List (String × Nat)

/-- Lookup of a tag in the throttle map (Python dict membership and
indexing). -/
def throttleGet? (m : ThrottleMap) (tag : String) : Option Nat :=
  List.lookup tag m

/-- Assignment docker_pull_throttle[tag] = now. -/
def throttleSet (m : ThrottleMap) (tag : String) (t : Nat) : ThrottleMap :=
  match m with
  | [] => [(tag, t)]
  | (k, v) :: rest =>
      if k == tag then (k, t) :: rest else (k, v) :: throttleSet rest tag t

/-- Outcome of the MONAI app manifest probe, the container run at
process_series.py line 271 that executes cat /etc/monai/app.json on the
module image. -/
inductive ProbeOutcome where
  /-- docker.errors.ContainerError: the container ran and exited nonzero
  because the image carries no manifest (the common case, line 277). -/
  | notMonai
  /-- docker.errors.NotFound: the docker tag does not exist; docker_runtime
  raises (line 280), so the probe container never started. -/
  | imageMissing
  /-- The manifest was read and parsed; the entrypoint and command are
  overridden and the image is treated as requiring root (lines 274-276). -/
  | monaiManifest
  /-- json.decoder.JSONDecodeError or KeyError: docker_runtime raises
  (line 282) after the probe container ran. -/
  | manifestUnparsable
deriving DecidableEq, Repr

/-- Environment behavior relevant to one docker_runtime invocation: the
clock, filesystem and docker outcomes that the control flow branches on. -/
structure DockerWorld where
  now : Nat
  persistence_folder_ok : Bool := true
  persistence_lock_ok : Bool := true
  probe : ProbeOutcome := ProbeOutcome.notMonai
  cosign : CosignWorld := {}
  support_root_modules : Bool := false
  prepare_files_ok : Bool := true
  run_api_error : Bool := false
  run_image_not_found : Bool := false
  module_exit_code : Nat := 0
  busybox_pull_ok : Bool := true
  chown_api_error : Bool := false
  persistence_unlink_ok : Bool := true
deriving Repr

/-- Result of docker_runtime: the Python return value (Except.error for an
exception escaping the coroutine), the docker actions performed, and the
updated pull throttle map. -/
structure RunResult where
  outcome : Except Unit Bool
  events : List Event
  throttle : ThrottleMap

/-- The part of docker_runtime that runs once signature verification has
passed (process_series.py lines 435-634): the root execution policy raise
(lines 464-467), the input and output file preparation whose PermissionError
is re-raised (lines 515-527), the module container run whose APIError or
ImageNotFound is caught and marks failure (lines 529-544 and 614-621), the
busybox helper pull under its daily throttle whose timestamp is read under
busybox:stable-musl but recorded under the key busybox:stable_musl exactly
as written at line 565, the chown helper container (lines 579-585), the
nonzero-exit check (lines 608-612) and the persistence lock removal
(lines 627-633). -/
def docker_runtime_module_phase (docker_tag : String)
    (requires_root requires_persistence : Bool) (w : DockerWorld)
    (throttle1 : ThrottleMap) (verifiedEvents : List Event) : RunResult :=
  -- Root execution policy: the raise escapes the try block, whose handlers
  -- only catch docker API errors.
  if requires_root && !w.support_root_modules then
    { outcome := Except.error (), events := verifiedEvents
      throttle := throttle1 }
  else if !w.prepare_files_ok then
    { outcome := Except.error (), events := verifiedEvents
      throttle := throttle1 }
  else if w.run_api_error || w.run_image_not_found then
    -- Failure is returned whether or not the persistence lock cleanup at
    -- lines 627-633 succeeds.
    { outcome := Except.ok false, events := verifiedEvents
      throttle := throttle1 }
  else
    let runEvents := verifiedEvents
      ++ [Event.runContainer docker_tag ContainerKind.processing]
    let busyPull :=
      w.now - (throttleGet? throttle1 "busybox:stable-musl").getD 0 > 86400
    let busyEvents :=
      if busyPull then [Event.pullImage "busybox:stable-musl"] else []
    let throttle2 :=
      if busyPull && w.busybox_pull_ok then
        throttleSet throttle1 "busybox:stable_musl" w.now
      else throttle1
    if w.chown_api_error then
      { outcome := Except.ok false, events := runEvents ++ busyEvents
        throttle := throttle2 }
    else
      let allEvents := runEvents ++ busyEvents
        ++ [Event.runContainer "busybox:stable-musl" ContainerKind.chownHelper]
      let processing_success := w.module_exit_code == 0
      if requires_persistence && !w.persistence_unlink_ok then
        { outcome := Except.ok false, events := allEvents
          throttle := throttle2 }
      else
        { outcome := Except.ok processing_success, events := allEvents
          throttle := throttle2 }

/-- Embeds docker_runtime (process_series.py lines 187-634), with the
throttle map passed explicitly in place of the process-global
docker_pull_throttle.  Source order is preserved: missing process section or
docker tag returns False; the persistence folder and its lock are prepared
(lines 246-266); the MONAI manifest probe container runs on the module image
(line 271); the hourly pull throttle decides whether to pull the module image
and records the pull time under the module tag (lines 288-331);
verify_container_signature gates further execution (lines 430-433); the root
policy and input-file preparation may raise (lines 464-527); the module
container runs and is waited on (lines 529-544); the busybox helper is pulled
under a daily throttle whose recording uses the key busybox:stable_musl
spelled with an underscore, exactly as at line 565 of the source, and then
runs to chown the output (lines 559-585); a nonzero exit marks failure
(lines 608-612) and the persistence lock is removed (lines 627-633). -/
def docker_runtime (task_has_process : Bool) (m : Module) (w : DockerWorld)
    (throttle : ThrottleMap) : RunResult :=
  if !task_has_process then
    { outcome := Except.ok false, events := [], throttle := throttle }
  else
    match m.docker_tag with
    | none => { outcome := Except.ok false, events := [], throttle := throttle }
    | some docker_tag =>
      -- Persistence folder preparation (lines 246-266).
      if m.requires_persistence && !w.persistence_folder_ok then
        { outcome := Except.ok false, events := [], throttle := throttle }
      else if m.requires_persistence && !w.persistence_lock_ok then
        { outcome := Except.ok false, events := [], throttle := throttle }
      else
        -- MONAI app manifest probe (lines 268-282).
        match w.probe with
        | ProbeOutcome.imageMissing =>
          { outcome := Except.error (), events := [], throttle := throttle }
        | ProbeOutcome.manifestUnparsable =>
          { outcome := Except.error ()
            events := [Event.runContainer docker_tag ContainerKind.manifestProbe]
            throttle := throttle }
        | probeRes =>
          let probeEvents := [Event.runContainer docker_tag ContainerKind.manifestProbe]
          let image_is_monai_map := probeRes == ProbeOutcome.monaiManifest
          let requires_root := m.requires_root || image_is_monai_map
          -- Hourly image update throttle (lines 288-294): skip the pull when
          -- the recorded pull for this tag is less than 3600 seconds old.
          let perform_image_update :=
            match throttleGet? throttle docker_tag with
            | none => true
            | some t => !(w.now - t < 3600)
          -- The pull time is recorded before the pull is issued (line 329);
          -- pull failures are caught and only logged (lines 373-428).
          let throttle1 :=
            if perform_image_update then throttleSet throttle docker_tag w.now
            else throttle
          let pullEvents :=
            if perform_image_update then [Event.pullImage docker_tag] else []
          let preEvents := probeEvents ++ pullEvents
          -- Signature verification gate (lines 430-433).
          let vr := verify_container_signature docker_tag m w.cosign
          match vr.outcome with
          | Except.error _ =>
            { outcome := Except.error (), events := preEvents ++ vr.events
              throttle := throttle1 }
          | Except.ok false =>
            { outcome := Except.ok false, events := preEvents ++ vr.events
              throttle := throttle1 }
          | Except.ok true =>
            docker_runtime_module_phase docker_tag requires_root
              m.requires_persistence w throttle1 (preEvents ++ vr.events)

/-- One step of a multi-step processing pipeline as process_series sees it:
the module name from task.process, whether its docker_runtime invocation
returned True, and the content of out/result.json the module left behind
(none when the file is missing or not valid JSON, in which case
handle_processor_output returns None, process_series.py lines 859-873). -/
structure PipelineStep where
  module_name : String
  run_succeeds : Bool
  result_json : Option JVal
deriving DecidableEq, Repr

/-- The multi-step loop of process_series (process_series.py lines 719-737):
each successful step appends the pair of its module name and its captured
output to the outputs list; the first failing step breaks the loop.  Returns
the final processing_success flag and the accumulated outputs. -/
def run_pipeline_steps : List PipelineStep → Bool × List (String × Option JVal)
  | [] => (true, [])
  | s :: rest =>
    if s.run_succeeds then
      let tail := run_pipeline_steps rest
      (tail.1, (s.module_name, s.result_json) :: tail.2)
    else (false, [])

/-- The final out/result.json written by process_series for a multi-step
pipeline (process_series.py lines 741-743): after each step the module's own
result.json is deleted (line 732), and once the loop ends the accumulated
outputs list is written if it is nonempty; with an empty pipeline the
processing_success flag keeps its initial False value (line 641). -/
def process_series_multistep (steps : List PipelineStep) :
    Bool × Option (List (String × Option JVal)) :=
  match steps with
  | [] => (false, none)
  | _ =>
    let r := run_pipeline_steps steps
    (r.1, if r.2.isEmpty then none else some r.2)

/-- Terminal folders a unit can be moved to by move_results. -/
inductive Dest where
  | errorFolder
  | outgoingFolder
  | successFolder
deriving DecidableEq, Repr

/-- Observable result of move_results: where the unit was moved (none when
the move was refused), whether the whole folder was moved rather than just
out/, and the fail stage recorded in the task file.

Modelled from the spec: update_fail_stage lives in dispatch/send.py, which is
not part of the sources at hand; per the specification it writes
info.fail_stage (here the string processing, the value of
FailStage.PROCESSING) into the task file of the moved unit. -/
structure MoveOutcome where
  moved : Option Dest
  move_all : Bool
  fail_stage_written : Option String
deriving DecidableEq, Repr

/-- Embeds move_results together with move_out_folder (process_series.py
lines 876-930): a pre-existing lock file or a failure to create one refuses
the move; a failed unit is moved whole to the error folder and its fail
stage is set to processing; a successful unit moves to outgoing when
dispatching is still needed and to success otherwise (only the out/
subfolder is moved in the success cases).  The move_ok flag stands for the
shutil.move call succeeding; when it fails the error is logged and the fail
stage is not updated (lines 919-930). -/
def move_results (folder_has_lock lock_creation_ok move_ok : Bool)
    (processing_success needs_dispatching : Bool) : MoveOutcome :=
  if folder_has_lock then
    { moved := none, move_all := false, fail_stage_written := none }
  else if !lock_creation_ok then
    { moved := none, move_all := false, fail_stage_written := none }
  else if !processing_success then
    if move_ok then
      { moved := some Dest.errorFolder, move_all := true
        fail_stage_written := some "processing" }
    else
      { moved := none, move_all := true, fail_stage_written := none }
  else if needs_dispatching then
    { moved := if move_ok then some Dest.outgoingFolder else none
      move_all := false, fail_stage_written := none }
  else
    { moved := if move_ok then some Dest.successFolder else none
      move_all := false, fail_stage_written := none }

/-- The needs_dispatching flag computed by process_series (process_series.py
lines 676-677): True exactly when the task document carries a truthy
dispatch section, a missing section or an empty dict being falsy. -/
def needs_dispatching (task_dispatch : Option (List (String × JVal))) : Bool :=
  match task_dispatch with
  | some d => !d.isEmpty
  | none => false

/-- The study section of a study-level task file (common.types.TaskHasStudy),
restricted to the fields route_studies.py reads.  Times are seconds; an
unparseable time string is folded into the surrounding exception handling of
the callers, so a present value is always a parsed time. -/
structure StudyRecord where
  study_uid : String
  creation_time : Option Nat := none
  last_receive_time : Option Nat := none
  complete_trigger : Option String := none
  complete_required_series : Option String := none
  complete_force : Option Bool := none
  complete_force_action : Option String := none
  received_series : Option (List String) := none
deriving DecidableEq, Repr

/-- A study-level task document. -/
structure StudyTask where
  id : String
  study : StudyRecord
deriving DecidableEq, Repr

/-- A folder under studies/ as seen by the study aggregator: its task file
(none when missing or unparseable), the .complete_force marker and the lock
state route_studies consults. -/
structure StudyFolder where
  task : Option StudyTask
  has_force_complete_marker : Bool := false
  has_lock : Bool := false
  has_processing_marker : Bool := false
  dicom_count : Nat := 1
deriving DecidableEq, Repr

/-- The incoming/ spool, as the study-completion check sees it: for each
series UID, the StudyInstanceUID read from its tags sidecar when a readable
tags file with that key exists; none stands for a missing tags file, an
unreadable one, or one without the key, all of which raise inside
check_study_timeout. -/
def IncomingTags := List (String × Option String)

/-- Lookup of the StudyInstanceUID for a pending series in incoming/; a
series without a readable tags entry yields none. -/
def incomingStudyUid (incoming : IncomingTags) (series_uid : String) :
    Option String :=
  match List.lookup series_uid incoming with
  | some v => v
  | none => none

/-- The loop over pending series inside check_study_timeout
(route_studies.py lines 161-170): a pending series whose tags cannot be read
raises (line 166, re-raised StopIteration, or a key error in line 168), and a
pending series whose StudyInstanceUID matches the study returns False. -/
def pending_series_scan (incoming : IncomingTags) (study_uid : String) :
    List String → Except Unit Bool
  | [] => Except.ok true
  | uid :: rest =>
    match incomingStudyUid incoming uid with
    | none => Except.error ()
    | some suid =>
      if suid == study_uid then Except.ok false
      else pending_series_scan incoming study_uid rest

/-- Embeds check_study_timeout (route_studies.py lines 146-175): no
last-receive time means not complete; the study completes only when the
clock is strictly past the last-receive time plus the configured
study_complete_trigger and no pending series in incoming/ belongs to this
study.  Except.error stands for the exception escaping to
is_study_complete. -/
def check_study_timeout (study_complete_trigger : Nat) (now : Nat)
    (task : StudyTask) (pending_series : List String)
    (incoming : IncomingTags) : Except Unit Bool :=
  match task.study.last_receive_time with
  | none => Except.ok false
  | some last_receive_time =>
    if now > last_receive_time + study_complete_trigger then
      pending_series_scan incoming task.study.study_uid pending_series
    else
      Except.ok false

/-- Embeds is_study_complete (route_studies.py lines 94-143).  The
completion-series evaluator parse_completion_series lives in
common/rule_evaluation.py outside the sources at hand and is passed in as
the collaborator function evalCompletion, mirroring the rule evaluator
interface of the spec.  An unreadable task file, an exception from
check_study_timeout, an empty trigger or an unknown trigger all yield
False; complete_force in the task or the .complete_force marker yield True;
a received_series trigger with an empty required list falls back to the
timeout check (lines 125-131). -/
def is_study_complete (study_complete_trigger : Nat) (now : Nat)
    (folder : StudyFolder) (pending_series : List String)
    (incoming : IncomingTags)
    (evalCompletion : String → List String → Bool) : Bool :=
  match folder.task with
  | none => false
  | some task =>
    if task.study.complete_force == some true then true
    else if folder.has_force_complete_marker then true
    else
      let trigger := task.study.complete_trigger.getD ""
      if trigger == "" then false
      else
        let required := task.study.complete_required_series.getD ""
        let trigger' :=
          if trigger == "received_series" && required == "" then "timeout"
          else trigger
        if trigger' == "timeout" then
          match check_study_timeout study_complete_trigger now task
              pending_series incoming with
          | Except.ok b => b
          | Except.error _ => false
        else if trigger' == "received_series" then
          -- check_study_series (lines 226-237): a missing or empty received
          -- list is replaced by the empty list.
          evalCompletion required (task.study.received_series.getD [])
        else false

/-- Side effects of check_force_study_timeout on the spool. -/
inductive ForceEffect where
  /-- The .complete_force marker was written into the study folder. -/
  | wroteForceCompleteMarker
  /-- The study folder contents were moved to discard/. -/
  | movedToDiscard
  /-- The emptied study folder was removed. -/
  | removedFolder
deriving DecidableEq, Repr

/-- Result of check_force_study_timeout: its boolean return value and the
effects it performed. -/
structure ForceCheckResult where
  ok : Bool
  effects : List ForceEffect
deriving DecidableEq, Repr

/-- Embeds check_force_study_timeout (route_studies.py lines 178-223): with
an unreadable task file or missing creation time it returns False; once the
clock is strictly past the creation time plus study_forcecomplete_trigger, an
unset or ignore complete_force_action returns True without any effect, a
proceed action writes the .complete_force marker and returns True, and a
discard action locks the folder, moves it to discard/ and removes it,
returning False at the first of those steps that fails.  Any other action
string falls through the elif chain and returns True with no effect. -/
def check_force_study_timeout (study_forcecomplete_trigger : Nat) (now : Nat)
    (folder : StudyFolder) (discard_lock_ok move_ok remove_ok : Bool) :
    ForceCheckResult :=
  match folder.task with
  | none => { ok := false, effects := [] }
  | some task =>
    match task.study.creation_time with
    | none => { ok := false, effects := [] }
    | some creation_time =>
      if now > creation_time + study_forcecomplete_trigger then
        let action := task.study.complete_force_action.getD ""
        if action == "" || action == "ignore" then
          { ok := true, effects := [] }
        else if action == "proceed" then
          { ok := true, effects := [ForceEffect.wroteForceCompleteMarker] }
        else if action == "discard" then
          if !discard_lock_ok then { ok := false, effects := [] }
          else if !move_ok then { ok := false, effects := [] }
          else if !remove_ok then
            { ok := false, effects := [ForceEffect.movedToDiscard] }
          else
            { ok := true
              effects := [ForceEffect.movedToDiscard, ForceEffect.removedFolder] }
        else { ok := true, effects := [] }
      else { ok := true, effects := [] }

/-- Embeds is_study_locked (route_studies.py lines 81-91): a lock file, a
processing marker, or the absence of any DICOM file makes the folder
untouchable. -/
def is_study_locked (folder : StudyFolder) : Bool :=
  folder.has_lock || folder.has_processing_marker || folder.dicom_count == 0

/-- The selection pass of route_studies (route_studies.py lines 45-56): the
names of the unlocked study folders judged complete in this scan, which are
the only ones subsequently routed (lines 58-74). -/
def route_studies_ready (study_complete_trigger : Nat) (now : Nat)
    (folders : List (String × StudyFolder)) (pending_series : List String)
    (incoming : IncomingTags)
    (evalCompletion : String → List String → Bool) : List String :=
  folders.filterMap fun nf =>
    if !(is_study_locked nf.2)
        && is_study_complete study_complete_trigger now nf.2 pending_series
            incoming evalCompletion then
      some nf.1
    else none

/-- A study recorded inside a patient task (common.types.TaskPatientStudy),
restricted to the modality field read by check_patient_studies. -/
structure PatientStudyRec where
  modality : String
deriving DecidableEq, Repr

/-- The patient section of a patient-level task file
(common.types.TaskHasPatient), restricted to the fields route_studies.py
reads. -/
structure PatientRecord where
  patient_id : String
  creation_time : Option Nat := none
  last_receive_time : Option Nat := none
  complete_trigger : Option String := none
  complete_required_modalities : Option String := none
  complete_required_studies : Option String := none
  complete_required_series : Option String := none
  complete_force : Option Bool := none
  complete_force_action : Option String := none
  received_studies : Option (List PatientStudyRec) := none
  received_modalities : Option (List String) := none
  received_series : Option (List String) := none
deriving DecidableEq, Repr

/-- A patient-level task document. -/
structure PatientTask where
  id : String
  patient : PatientRecord
deriving DecidableEq, Repr

/-- A folder under patients/ as seen by the patient aggregator. -/
structure PatientFolder where
  task : Option PatientTask
  has_force_complete_marker : Bool := false
deriving DecidableEq, Repr

/-- A directory entry of the studies/ folder as check_patient_timeout lists
it: its name, whether it is a directory, and the info.mrn of its task file
when that file exists and parses (none stands for a missing or unreadable
task file, which the loop skips). -/
structure StudiesEntry where
  name : String
  is_dir : Bool := true
  task_mrn : Option String := none
deriving DecidableEq, Repr

/-- The loop over studies/ inside check_patient_timeout (route_studies.py
lines 734-746): directory entries are visited in order; non-directories are
skipped without opening anything; every directory entry has its task file
opened, unreadable ones are skipped, and the first readable task whose
info.mrn equals the patient id stops the loop.  Returns whether a matching
study was found together with the names of the folders whose task files
were opened. -/
def studies_mrn_scan (patient_id : String) :
    List StudiesEntry → Bool × List String
  | [] => (false, [])
  | e :: rest =>
    if !e.is_dir then studies_mrn_scan patient_id rest
    else
      match e.task_mrn with
      | none =>
        let tail := studies_mrn_scan patient_id rest
        (tail.1, e.name :: tail.2)
      | some mrn =>
        if mrn == patient_id then (true, [e.name])
        else
          let tail := studies_mrn_scan patient_id rest
          (tail.1, e.name :: tail.2)

/-- Embeds check_patient_timeout (route_studies.py lines 719-751): no
last-receive time means not complete; once the clock is strictly past the
last-receive time plus patient_complete_trigger, the studies/ folder is
re-read and a study task with matching mrn forces False; otherwise the
check returns True.  The second component records which task files were
opened during the invocation. -/
def check_patient_timeout (patient_complete_trigger : Nat) (now : Nat)
    (task : PatientTask) (studies : List StudiesEntry) :
    Bool × List String :=
  match task.patient.last_receive_time with
  | none => (false, [])
  | some last_receive_time =>
    if now > last_receive_time + patient_complete_trigger then
      let scan := studies_mrn_scan task.patient.patient_id studies
      (!scan.1, scan.2)
    else (false, [])

/-- Embeds is_patient_complete (route_studies.py lines 670-716), with the
same collaborator evaluator as the study-level check.  complete_force or the
.complete_force marker yield True; an empty trigger yields False; the
timeout trigger defers to check_patient_timeout; the received_modalities,
received_studies and received_series triggers defer to the evaluator over
the corresponding received lists (check_patient_modalities, _studies and
_series, lines 802-841, where received_studies contributes its modality
fields); any other trigger yields False. -/
def is_patient_complete (patient_complete_trigger : Nat) (now : Nat)
    (folder : PatientFolder) (studies : List StudiesEntry)
    (evalCompletion : String → List String → Bool) : Bool :=
  match folder.task with
  | none => false
  | some task =>
    if task.patient.complete_force == some true then true
    else if folder.has_force_complete_marker then true
    else
      let trigger := task.patient.complete_trigger.getD ""
      if trigger == "" then false
      else if trigger == "timeout" then
        (check_patient_timeout patient_complete_trigger now task studies).1
      else if trigger == "received_modalities" then
        evalCompletion (task.patient.complete_required_modalities.getD "")
          (task.patient.received_modalities.getD [])
      else if trigger == "received_studies" then
        evalCompletion (task.patient.complete_required_studies.getD "")
          ((task.patient.received_studies.getD []).map PatientStudyRec.modality)
      else if trigger == "received_series" then
        evalCompletion (task.patient.complete_required_series.getD "")
          (task.patient.received_series.getD [])
      else false

/-- The per-target entry of dispatch.status in a task document, as raw JSON:
each field is present with a value or absent (queue.py manipulates the task
as a plain dict). -/
structure TargetStatus where
  state : Option JVal := none
  retries : Option JVal := none
  next_retry_at : Option JVal := none
deriving DecidableEq, Repr

/-- The dispatch section of a task document as raw JSON: the per-target
status map (present when the status key exists), plus the dispatch-level
retries and next_retry_at keys, absent in normal task files. -/
structure DispatchSection where
  has_status_key : Bool := true
  status : List (String × TargetStatus) := []
  retries : Option JVal := none
  next_retry_at : Option JVal := none
deriving DecidableEq, Repr

/-- A task document as restart_dispatch reads it from task.json: the
info.action string, whether info and info.fail_stage keys exist, the
fail_stage value, and the dispatch section. -/
structure TaskDoc where
  info_action : Option String := none
  has_info : Bool := true
  has_fail_stage_key : Bool := false
  fail_stage : Option JVal := none
  dispatch : Option DispatchSection := none
deriving DecidableEq, Repr

/-- A task folder in error/ as restart_dispatch inspects it. -/
structure ErrorFolder where
  has_lock : Bool := false
  has_error_marker : Bool := false
  has_processing_marker : Bool := false
  task : Option TaskDoc
deriving DecidableEq, Repr

/-- Outcome of restart_dispatch: an error code, or success carrying the task
document written back to task.json before the folder is moved from error/
to outgoing/. -/
inductive RestartOutcome where
  | failure (code : String)
  | restarted (written_task : TaskDoc) (moved_to_outgoing : Bool)
deriving DecidableEq, Repr

/-- Embeds restart_dispatch (queue.py lines 718-759): a lock, error or
processing marker refuses the restart, as does a missing task file; a
nonempty info.action other than both or route is the wrong job type; when
the dispatch section and its status key exist, the dispatch-level retries
and next_retry_at keys are set to null (lines 743-744), info.fail_stage is
set to null when the key exists (lines 747-748), the file is written back
and the folder is moved to outgoing/; otherwise the dispatch status cannot
be checked. -/
def restart_dispatch (folder : ErrorFolder) : RestartOutcome :=
  if folder.has_lock || folder.has_error_marker || folder.has_processing_marker then
    RestartOutcome.failure "TASK_NOT_READY"
  else
    match folder.task with
    | none => RestartOutcome.failure "NO_TASK_FILE"
    | some t =>
      let action := t.info_action.getD ""
      if action != "" && action != "both" && action != "route" then
        RestartOutcome.failure "WRONG_JOB_TYPE"
      else
        match t.dispatch with
        | some d =>
          if d.has_status_key then
            let d' := { d with retries := some JVal.null
                               next_retry_at := some JVal.null }
            let t' := { t with dispatch := some d'
                               fail_stage :=
                                 if t.has_info && t.has_fail_stage_key then
                                   some JVal.null
                                 else t.fail_stage }
            RestartOutcome.restarted t' true
          else RestartOutcome.failure "NO_DISPATCH_STATUS"
        | none => RestartOutcome.failure "NO_DISPATCH_STATUS"

/-- A row of the bookkeeper tasks table joined with dicom_series, restricted
to the columns the hierarchical find_task filter consults.  Option stands
for SQL NULL (a task without a matching dicom_series row has a NULL
tag_patientid); time is in seconds. -/
structure TaskRow where
  row_id : Nat
  parent_id : Option Nat := none
  uid_type : Option String := none
  mrn : Option String := none
  tag_patientid : Option String := none
  time : Int := 0
deriving DecidableEq, Repr

/-- SQL COALESCE over two nullable strings. -/
def sqlCoalesce (a b : Option String) : Option String :=
  match a with
  | some v => some v
  | none => b

/-- SQL equality between two nullable strings: NULL never compares equal. -/
def sqlEqStr (a b : Option String) : Bool :=
  match a, b with
  | some x, some y => x == y
  | _, _ => false

/-- The WHERE filter of the hierarchical (empty group_by) find_task view
(query.py lines 450-463 for the count query and lines 561-574 for the data
query, which are identical): a top-level row is shown when it is a patient
task, or a study task for which NOT EXISTS a patient task whose info.mrn
equals COALESCE of the study row's info.mrn and tag_patientid.  The inner
EXISTS ranges over the whole tasks table and carries no time condition. -/
def shown_hierarchical (db : List TaskRow) (r : TaskRow) : Bool :=
  r.parent_id == none
  && (r.uid_type == some "patient"
      || (r.uid_type == some "study"
          && !(db.any fun pt =>
                pt.uid_type == some "patient"
                && sqlEqStr pt.mrn (sqlCoalesce r.mrn r.tag_patientid))))

/-- The rows returned at top level by the hierarchical find_task view. -/
def find_task_hierarchical (db : List TaskRow) : List TaskRow :=
  db.filter (shown_hierarchical db)

/-! Theorems settling the claims. -/

/-- C10: verify_container_signature returns True without running any
container whenever the module settings leave require_signature unset (no
settings map, an empty one, or no such key) or set it to a Python-falsy
value or to one of the strings 0, false, False; in all these cases no pull
and no container run happens before the module executes. -/
theorem c10_no_verification_when_not_required
    (tag : String) (m : Module) (w : CosignWorld)
    (h : m.settings = none ∨ m.settings = some [] ∨
         ∃ s v, m.settings = some s ∧
           (s.lookup "require_signature" = none ∨
            (s.lookup "require_signature" = some v ∧
              (jTruthy v = false ∨ v = JVal.str "0" ∨ v = JVal.str "false" ∨
               v = JVal.str "False")))) :
    verify_container_signature tag m w =
      { outcome := Except.ok true, events := [] } := by
  rcases h with h | h | ⟨s, v, hs, hv⟩
  · simp [verify_container_signature, h, jIsStr, jTruthy]
  · simp [verify_container_signature, h, jIsStr, jTruthy]
  · rcases hv with hv | ⟨hv, hcase⟩
    · by_cases hse : s.isEmpty
      · simp [verify_container_signature, hs, hse, jIsStr, jTruthy]
      · simp [verify_container_signature, hs, hse, settingsGet, hv, jTruthy,
          jIsStr]
    · by_cases hse : s.isEmpty
      · simp [verify_container_signature, hs, hse, jIsStr, jTruthy]
      · rcases hcase with hc | hc | hc | hc <;>
          simp_all [verify_container_signature, settingsGet, jIsStr, jTruthy]

/-- Witness for C10 at a concrete module whose settings set
require_signature to the string False. -/
theorem c10_no_verification_when_not_required_witness :
    verify_container_signature "acme/algorithm:v1"
        { docker_tag := some "acme/algorithm:v1"
          settings := some [("require_signature", JVal.str "False")] } {} =
      { outcome := Except.ok true, events := [] } :=
  c10_no_verification_when_not_required "acme/algorithm:v1" _ {}
    (Or.inr (Or.inr ⟨[("require_signature", JVal.str "False")],
      JVal.str "False", rfl, Or.inr ⟨by decide, by decide⟩⟩))

/-- The verifier fails for a tag when verify_container_signature does not
return True: a False return (verification failed or certificates missing)
or an escaping exception (cosign image unavailable). -/
def verify_fails (tag : String) (m : Module) (w : CosignWorld) : Bool :=
  match (verify_container_signature tag m w).outcome with
  | Except.ok true => false
  | _ => true

/-- Every container started by verify_container_signature is the verifier
itself. -/
theorem verify_events_only_verifier (tag : String) (m : Module)
    (w : CosignWorld) :
    ∀ img k, Event.runContainer img k ∈
        (verify_container_signature tag m w).events →
      k = ContainerKind.verifier := by
  intro img k hmem
  unfold verify_container_signature at hmem
  simp only [jIsStr, jTruthy, settingsGet] at hmem
  repeat' split at hmem
  all_goals simp_all

/-- With a failing verifier, docker_runtime never reports success. -/
theorem docker_runtime_verify_fail_outcome
    (m : Module) (w : DockerWorld) (throttle : ThrottleMap) (tag : String)
    (htag : m.docker_tag = some tag)
    (hfail : (verify_container_signature tag m w.cosign).outcome ≠
      Except.ok true) :
    (docker_runtime true m w throttle).outcome ≠ Except.ok true := by
  intro hc
  simp only [docker_runtime, htag] at hc
  cases hv : (verify_container_signature tag m w.cosign).outcome with
  | error u =>
    simp only [hv] at hc
    repeat' split at hc
    all_goals simp_all
  | ok b =>
    cases b
    · simp only [hv] at hc
      repeat' split at hc
      all_goals simp_all
    · exact hfail hv

/-- With a failing verifier, the only containers docker_runtime may have
started are the manifest probe and the verifier. -/
theorem docker_runtime_verify_fail_events
    (m : Module) (w : DockerWorld) (throttle : ThrottleMap) (tag : String)
    (htag : m.docker_tag = some tag)
    (hfail : (verify_container_signature tag m w.cosign).outcome ≠
      Except.ok true) :
    ∀ img k, Event.runContainer img k ∈
        (docker_runtime true m w throttle).events →
      k = ContainerKind.manifestProbe ∨ k = ContainerKind.verifier := by
  have hverify := verify_events_only_verifier tag m w.cosign
  intro img k hmem
  simp only [docker_runtime, htag] at hmem
  cases hv : (verify_container_signature tag m w.cosign).outcome with
  | error u =>
    simp only [hv] at hmem
    repeat' split at hmem
    all_goals simp_all
    all_goals
      rcases hmem with ⟨heq1, rfl⟩ | hmem
      · exact Or.inl rfl
      · exact Or.inr (hverify img k hmem)
  | ok b =>
    cases b
    · simp only [hv] at hmem
      repeat' split at hmem
      all_goals simp_all
      all_goals
        rcases hmem with ⟨heq1, rfl⟩ | hmem
        · exact Or.inl rfl
        · exact Or.inr (hverify img k hmem)
    · exact absurd hv hfail

/-- C1 (amended): for every task whose module configuration names a docker
tag and whose containerized verifier fails (False from a nonzero cosign
exit, a generic verification error or missing certificate identity or OIDC
issuer, or the exception raised when the cosign image is unavailable),
docker_runtime does not report success and never starts the processing
module container nor the chown helper, so there is no fallback to unsigned
execution; the only containers that may have been started besides the
verifier are manifest-detection probes, which the source runs on the module
image before verification. -/
theorem c1_failing_verifier_blocks_module
    (m : Module) (w : DockerWorld) (throttle : ThrottleMap) (tag : String)
    (htag : m.docker_tag = some tag)
    (hfail : verify_fails tag m w.cosign = true) :
    (docker_runtime true m w throttle).outcome ≠ Except.ok true ∧
    ∀ img k, Event.runContainer img k ∈
        (docker_runtime true m w throttle).events →
      k = ContainerKind.manifestProbe ∨ k = ContainerKind.verifier := by
  have hfail' : (verify_container_signature tag m w.cosign).outcome ≠
      Except.ok true := by
    intro hc
    unfold verify_fails at hfail
    rw [hc] at hfail
    simp at hfail
  exact ⟨docker_runtime_verify_fail_outcome m w throttle tag htag hfail',
         docker_runtime_verify_fail_events m w throttle tag htag hfail'⟩

/-- Witness for C1 at a concrete module that requires a signature without a
configured certificate identity, so its verifier fails. -/
theorem c1_failing_verifier_blocks_module_witness :
    (docker_runtime true
        { docker_tag := some "acme/algorithm:v1"
          settings := some [("require_signature", JVal.bool true)] }
        { now := 7200 } []).outcome ≠ Except.ok true ∧
    ∀ img k, Event.runContainer img k ∈
        (docker_runtime true
          { docker_tag := some "acme/algorithm:v1"
            settings := some [("require_signature", JVal.bool true)] }
          { now := 7200 } []).events →
      k = ContainerKind.manifestProbe ∨ k = ContainerKind.verifier :=
  c1_failing_verifier_blocks_module _ _ [] "acme/algorithm:v1" rfl (by decide)

/-- C1 counterexample: at a concrete task requiring a signature whose
verifier fails because no certificate identity is configured, a container
other than the verifier does run, namely the manifest-detection probe that
executes the unverified module image; the claim that no container other
than the verifier runs is therefore false of the code as stated. -/
theorem c1_counterexample :
    verify_fails "acme/algorithm:v1"
      { docker_tag := some "acme/algorithm:v1"
        settings := some [("require_signature", JVal.bool true)] }
      ({ now := 7200 } : DockerWorld).cosign = true ∧
    ¬ (∀ img k, Event.runContainer img k ∈
          (docker_runtime true
            { docker_tag := some "acme/algorithm:v1"
              settings := some [("require_signature", JVal.bool true)] }
            { now := 7200 } []).events →
        k = ContainerKind.verifier) := by
  constructor
  · decide
  · intro hall
    exact absurd
      (hall "acme/algorithm:v1" ContainerKind.manifestProbe (by decide))
      (by decide)

/-- C7: evaluation of the code at the failing input.  Two successful
docker_runtime invocations for the same module, ten seconds apart, both
initiate a registry pull of busybox:stable-musl, because the first run
records its pull time under the misspelled key busybox:stable_musl
(process_series.py line 565) while the throttle check reads the key
busybox:stable-musl (line 561); consequently the throttle map never holds an
entry for the pulled tag.  The module image itself is pulled only once, as
the hourly throttle intends. -/
theorem c7_busybox_pull_not_throttled :
    let m : Module := { docker_tag := some "acme/mod:1" }
    let r1 := docker_runtime true m { now := 100000 } []
    let r2 := docker_runtime true m { now := 100010 } r1.throttle
    Event.pullImage "busybox:stable-musl" ∈ r1.events ∧
    Event.pullImage "busybox:stable-musl" ∈ r2.events ∧
    throttleGet? r1.throttle "busybox:stable-musl" = none ∧
    throttleGet? r1.throttle "busybox:stable_musl" = some 100000 ∧
    Event.pullImage "acme/mod:1" ∈ r1.events ∧
    ¬ Event.pullImage "acme/mod:1" ∈ r2.events := by
  decide

/-- All steps succeeding, the pipeline loop accumulates one output pair per
step in declared order. -/
theorem run_pipeline_steps_all_ok (steps : List PipelineStep)
    (hall : ∀ s ∈ steps, s.run_succeeds = true) :
    run_pipeline_steps steps =
      (true, steps.map fun s => (s.module_name, s.result_json)) := by
  induction steps with
  | nil => rfl
  | cons s rest ih =>
    have hs : s.run_succeeds = true := hall s (List.mem_cons_self s rest)
    have hrest : ∀ x ∈ rest, x.run_succeeds = true := fun x hx =>
      hall x (List.mem_cons_of_mem s hx)
    simp [run_pipeline_steps, hs, ih hrest]

/-- C4: for every multi-step pipeline of N modules that all succeed under
the docker runtime, process_series reports success and the final
out/result.json is exactly the list pairing each module name with that
module's structured output, in the declared order of task.process; in
particular it has exactly N entries and its i-th entry belongs to the i-th
module. -/
theorem c4_pipeline_result_json (steps : List PipelineStep)
    (hne : steps ≠ [])
    (hall : ∀ s ∈ steps, s.run_succeeds = true) :
    process_series_multistep steps =
      (true, some (steps.map fun s => (s.module_name, s.result_json))) ∧
    (steps.map fun s => (s.module_name, s.result_json)).length =
      steps.length ∧
    ∀ i : Fin steps.length,
      (steps.map fun s => (s.module_name, s.result_json)).get
          (Fin.cast (List.length_map steps _).symm i) =
        ((steps.get i).module_name, (steps.get i).result_json) := by
  refine ⟨?_, List.length_map steps _, ?_⟩
  · unfold process_series_multistep
    match steps, hne with
    | s :: rest, _ =>
      rw [run_pipeline_steps_all_ok (s :: rest) hall]
      simp
  · intro i
    simp [List.get_eq_getElem, List.getElem_map]

/-- Witness for C4 at a concrete two-step pipeline. -/
theorem c4_pipeline_result_json_witness :
    process_series_multistep
        [{ module_name := "M1", run_succeeds := true
           result_json := some (JVal.num 8) },
         { module_name := "M2", run_succeeds := true
           result_json := none }] =
      (true, some [("M1", some (JVal.num 8)), ("M2", none)]) :=
  (c4_pipeline_result_json
    [{ module_name := "M1", run_succeeds := true
       result_json := some (JVal.num 8) },
     { module_name := "M2", run_succeeds := true, result_json := none }]
    (by decide) (by decide)).1

/-- The post-verification phase of docker_runtime does not report success
when the module container exits nonzero. -/
theorem module_phase_exit_nonzero (docker_tag : String)
    (rr rp : Bool) (w : DockerWorld) (th : ThrottleMap) (evs : List Event)
    (hexit : w.module_exit_code ≠ 0) :
    (docker_runtime_module_phase docker_tag rr rp w th evs).outcome ≠
      Except.ok true := by
  intro hc
  unfold docker_runtime_module_phase at hc
  by_cases h1 : (rr && !w.support_root_modules) = true <;>
  by_cases h2 : w.prepare_files_ok = true <;>
  by_cases h3 : (w.run_api_error || w.run_image_not_found) = true <;>
  by_cases h4 : w.chown_api_error = true <;>
  by_cases h5 : (rp && !w.persistence_unlink_ok) = true <;>
    simp_all

/-- docker_runtime does not report success when the module container exits
nonzero. -/
theorem docker_runtime_exit_nonzero (m : Module) (w : DockerWorld)
    (throttle : ThrottleMap) (hexit : w.module_exit_code ≠ 0) :
    (docker_runtime true m w throttle).outcome ≠ Except.ok true := by
  intro hc
  rcases hd : m.docker_tag with _ | tag
  · simp [docker_runtime, hd] at hc
  · simp only [docker_runtime, hd] at hc
    cases hv : (verify_container_signature tag m w.cosign).outcome with
    | error u =>
      simp only [hv] at hc
      repeat' split at hc
      all_goals simp_all
    | ok b =>
      cases b
      · simp only [hv] at hc
        repeat' split at hc
        all_goals simp_all
      · simp only [hv] at hc
        repeat' split at hc
        all_goals
          first
          | exact module_phase_exit_nonzero _ _ _ _ _ _ hexit hc
          | simp_all

/-- C5: under the docker or systemd runner, move_results sends a failed
unit (container nonzero exit included, since docker_runtime then reports
failure) whole to the error folder with info.fail_stage set to processing,
and sends a successful unit to outgoing when the task has a truthy dispatch
section and to success otherwise, provided the folder is not already locked
and the lock and move operations succeed. -/
theorem c5_move_results_routing
    (d : Option (List (String × JVal))) :
    (move_results false true true false (needs_dispatching d) =
      { moved := some Dest.errorFolder, move_all := true
        fail_stage_written := some "processing" }) ∧
    (needs_dispatching d = true →
      move_results false true true true (needs_dispatching d) =
        { moved := some Dest.outgoingFolder, move_all := false
          fail_stage_written := none }) ∧
    (needs_dispatching d = false →
      move_results false true true true (needs_dispatching d) =
        { moved := some Dest.successFolder, move_all := false
          fail_stage_written := none }) ∧
    (∀ (m : Module) (w : DockerWorld) (throttle : ThrottleMap),
      w.module_exit_code ≠ 0 →
        (docker_runtime true m w throttle).outcome ≠ Except.ok true) := by
  refine ⟨rfl, ?_, ?_, fun m w throttle hexit =>
    docker_runtime_exit_nonzero m w throttle hexit⟩
  · intro hnd
    simp [move_results, hnd]
  · intro hnd
    simp [move_results, hnd]

/-- Witness for C5 at a task with a one-target dispatch section. -/
theorem c5_move_results_routing_witness :
    move_results false true true true
        (needs_dispatching (some [("target_name", JVal.str "T1")])) =
      { moved := some Dest.outgoingFolder, move_all := false
        fail_stage_written := none } :=
  (c5_move_results_routing
      (some [("target_name", JVal.str "T1")])).2.1 (by decide)

/-- The pending-series loop returns True exactly when every pending series
has a readable tags entry whose StudyInstanceUID differs from the study. -/
theorem pending_series_scan_ok_true_iff (incoming : IncomingTags)
    (study_uid : String) (pending : List String) :
    pending_series_scan incoming study_uid pending = Except.ok true ↔
      ∀ s ∈ pending, ∃ suid, incomingStudyUid incoming s = some suid ∧
        suid ≠ study_uid := by
  induction pending with
  | nil => simp [pending_series_scan]
  | cons uid rest ih =>
    unfold pending_series_scan
    cases hu : incomingStudyUid incoming uid with
    | none => simp [hu]
    | some suid =>
      by_cases hs : suid == study_uid
      · simp only [hs, if_pos]
        constructor
        · intro hfalse; exact absurd hfalse (by simp)
        · intro hall
          rcases hall uid (List.mem_cons_self uid rest) with ⟨s2, hs2, hne⟩
          rw [hu] at hs2
          cases hs2
          exact absurd (eq_of_beq hs) hne
      · simp only [hs, if_neg, Bool.false_eq_true, not_false_iff]
        rw [ih]
        constructor
        · intro hall
          intro s hsmem
          rcases List.mem_cons.mp hsmem with rfl | hsmem
          · exact ⟨suid, hu, by simpa using hs⟩
          · exact hall s hsmem
        · intro hall s hsmem
          exact hall s (List.mem_cons_of_mem uid hsmem)

/-- C2 (amended): a study aggregate whose complete_trigger is timeout, with
no force completion in effect and a recorded last-receive time, is judged
complete by is_study_complete if and only if the clock is strictly past the
last-receive time plus study_complete_trigger AND every pending series in
incoming/ has a readable tags file whose StudyInstanceUID differs from the
study; in particular, while a pending series with a matching
StudyInstanceUID exists the study is not completed (the code uses a strict
comparison, and an unreadable pending tags file also blocks completion). -/
theorem c2_study_timeout_completion
    (cfg now : Nat) (folder : StudyFolder) (pending : List String)
    (incoming : IncomingTags) (ev : String → List String → Bool)
    (task : StudyTask) (t : Nat)
    (htask : folder.task = some task)
    (htrig : task.study.complete_trigger = some "timeout")
    (hforce : task.study.complete_force ≠ some true)
    (hmarker : folder.has_force_complete_marker = false)
    (hlast : task.study.last_receive_time = some t) :
    is_study_complete cfg now folder pending incoming ev = true ↔
      (now > t + cfg ∧
        ∀ s ∈ pending, ∃ suid, incomingStudyUid incoming s = some suid ∧
          suid ≠ task.study.study_uid) := by
  have hforceb : (task.study.complete_force == some true) = false := by
    cases hcf : task.study.complete_force with
    | none => rfl
    | some b =>
      cases b
      · rfl
      · exact absurd hcf hforce
  unfold is_study_complete
  rw [htask]
  simp only [hforceb, hmarker, htrig, if_false, Bool.false_eq_true]
  unfold check_study_timeout
  rw [hlast]
  by_cases ht : now > t + cfg
  · simp only [ht, if_pos]
    rw [← pending_series_scan_ok_true_iff incoming task.study.study_uid pending]
    cases hscan : pending_series_scan incoming task.study.study_uid pending with
    | error u => simp [hscan]
    | ok b => cases b <;> simp [hscan]
  · simp only [ht, if_neg, not_false_iff]
    simp [ht]

/-- Witness for C2 at a concrete study whose timeout has passed and whose
only pending series belongs to a different study. -/
theorem c2_study_timeout_completion_witness :
    is_study_complete 600 1601
        { task := some { id := "t1"
                         study := { study_uid := "S1"
                                    last_receive_time := some 1000
                                    complete_trigger := some "timeout" } } }
        ["1.2.3"] [("1.2.3", some "S9")] (fun _ _ => false) = true ↔
      (1601 > 1000 + 600 ∧
        ∀ s ∈ ["1.2.3"], ∃ suid,
          incomingStudyUid [("1.2.3", some "S9")] s = some suid ∧
          suid ≠ "S1") :=
  c2_study_timeout_completion 600 1601 _ ["1.2.3"] [("1.2.3", some "S9")]
    (fun _ _ => false) _ 1000 rfl rfl (by decide) rfl rfl

/-- C2 counterexample: at the instant when exactly study_complete_trigger
seconds have elapsed since the last-receive time (elapsed time at least the
trigger, as the claim states) and with no pending series at all,
is_study_complete still judges the study incomplete, because the source
compares with a strict greater-than; the claimed if-and-only-if is false at
this input. -/
theorem c2_counterexample :
    ¬ (is_study_complete 600 1600
          { task := some { id := "t1"
                           study := { study_uid := "S1"
                                      last_receive_time := some 1000
                                      complete_trigger := some "timeout" } } }
          [] [] (fun _ _ => false) = true ↔
        (1600 - 1000 ≥ 600 ∧
          ∀ s ∈ ([] : List String), ∃ suid,
            incomingStudyUid [] s = some suid ∧ suid ≠ "S1")) := by
  intro h
  have hcomplete : is_study_complete 600 1600
      { task := some { id := "t1"
                       study := { study_uid := "S1"
                                  last_receive_time := some 1000
                                  complete_trigger := some "timeout" } } }
      [] [] (fun _ _ => false) = true :=
    h.mpr ⟨by norm_num, by simp⟩
  have hfalse : is_study_complete 600 1600
      { task := some { id := "t1"
                       study := { study_uid := "S1"
                                  last_receive_time := some 1000
                                  complete_trigger := some "timeout" } } }
      [] [] (fun _ _ => false) = false := rfl
  rw [hcomplete] at hfalse
  exact absurd hfalse (by decide)

/-- C3 (amended): once the clock is strictly past a study's creation time
plus study_forcecomplete_trigger, check_force_study_timeout acts according
to complete_force_action: with the value unset or ignore it returns success
without taking any action, so the study merely remains pending; with
proceed it writes the .complete_force marker, after which is_study_complete
judges the study complete on any later scan; with discard it locks the
folder, moves it to discard/ and removes it. -/
theorem c3_force_timeout_actions
    (cfg_force now : Nat) (folder : StudyFolder) (task : StudyTask)
    (ct : Nat)
    (htask : folder.task = some task)
    (hct : task.study.creation_time = some ct)
    (hmet : now > ct + cfg_force) :
    ((task.study.complete_force_action.getD "" = "" ∨
        task.study.complete_force_action.getD "" = "ignore") →
      ∀ l mv rm, check_force_study_timeout cfg_force now folder l mv rm =
        { ok := true, effects := [] }) ∧
    (task.study.complete_force_action = some "proceed" →
      (∀ l mv rm, check_force_study_timeout cfg_force now folder l mv rm =
        { ok := true, effects := [ForceEffect.wroteForceCompleteMarker] }) ∧
      (∀ cfg now2 pending incoming ev,
        is_study_complete cfg now2
          { folder with has_force_complete_marker := true }
          pending incoming ev = true)) ∧
    (task.study.complete_force_action = some "discard" →
      check_force_study_timeout cfg_force now folder true true true =
        { ok := true
          effects := [ForceEffect.movedToDiscard,
                      ForceEffect.removedFolder] }) := by
  refine ⟨?_, ?_, ?_⟩
  · intro haction l mv rm
    rcases haction with h | h <;>
      simp [check_force_study_timeout, htask, hct, hmet, h]
  · intro haction
    constructor
    · intro l mv rm
      simp [check_force_study_timeout, htask, hct, hmet, haction]
    · intro cfg now2 pending incoming ev
      unfold is_study_complete
      simp only [htask]
      by_cases hcf : (task.study.complete_force == some true) = true <;>
        simp [hcf]
  · intro haction
    simp [check_force_study_timeout, htask, hct, hmet, haction]

/-- Witness for C3 at a concrete study whose force timeout has passed with
action proceed. -/
theorem c3_force_timeout_actions_witness :
    (∀ l mv rm, check_force_study_timeout 100 2000
        { task := some { id := "t9"
                         study := { study_uid := "S2"
                                    creation_time := some 0
                                    last_receive_time := some 1000
                                    complete_trigger := some "timeout"
                                    complete_force_action := some "proceed" } } }
        l mv rm =
      { ok := true, effects := [ForceEffect.wroteForceCompleteMarker] }) ∧
    (∀ cfg now2 pending incoming ev,
      is_study_complete cfg now2
        { task := some { id := "t9"
                         study := { study_uid := "S2"
                                    creation_time := some 0
                                    last_receive_time := some 1000
                                    complete_trigger := some "timeout"
                                    complete_force_action := some "proceed" } }
          has_force_complete_marker := true }
        pending incoming ev = true) :=
  (c3_force_timeout_actions 100 2000
    { task := some { id := "t9"
                     study := { study_uid := "S2"
                                creation_time := some 0
                                last_receive_time := some 1000
                                complete_trigger := some "timeout"
                                complete_force_action := some "proceed" } } }
    { id := "t9"
      study := { study_uid := "S2"
                 creation_time := some 0
                 last_receive_time := some 1000
                 complete_trigger := some "timeout"
                 complete_force_action := some "proceed" } }
    0 rfl rfl (by decide)).2.1 rfl

/-- C3 counterexample: a study whose force timeout is met with
complete_force_action ignore is not treated as complete: the force check
returns success with no effects, and the study is absent from the ready
list of the current scan and of a later scan alike, so nothing ever routes
it; the claimed treat-as-complete behavior for ignore is false of the
code. -/
theorem c3_counterexample :
    (2000 > 0 + 100) ∧
    (check_force_study_timeout 100 2000
        { task := some { id := "t9"
                         study := { study_uid := "S2"
                                    creation_time := some 0
                                    last_receive_time := some 1000
                                    complete_trigger := some "timeout"
                                    complete_force_action := some "ignore" } } }
        true true true =
      { ok := true, effects := [] }) ∧
    ¬ ("S2_r" ∈ route_studies_ready 3600 2000
        [("S2_r",
          { task := some { id := "t9"
                           study := { study_uid := "S2"
                                      creation_time := some 0
                                      last_receive_time := some 1000
                                      complete_trigger := some "timeout"
                                      complete_force_action := some "ignore" } } })]
        [] [] (fun _ _ => false)) ∧
    ¬ ("S2_r" ∈ route_studies_ready 3600 2500
        [("S2_r",
          { task := some { id := "t9"
                           study := { study_uid := "S2"
                                      creation_time := some 0
                                      last_receive_time := some 1000
                                      complete_trigger := some "timeout"
                                      complete_force_action := some "ignore" } } })]
        [] [] (fun _ _ => false)) := by
  refine ⟨by norm_num, rfl, ?_, ?_⟩ <;> decide

/-- C6 (amended): restarting a failed task whose folder carries no lock or
halt markers and whose task file has a dispatch section with a status key
and an action that is empty, both or route, sets the dispatch-level retries
and next_retry_at keys to null (not the per-target entries inside
dispatch.status, which restart_dispatch leaves unchanged, so the recorded
state of already-completed targets is untouched and the dispatcher skips
them), clears info.fail_stage when the key exists, and moves the task
folder from error/ to outgoing/. -/
theorem c6_restart_dispatch_behavior
    (folder : ErrorFolder) (t : TaskDoc) (d : DispatchSection)
    (hlock : folder.has_lock = false) (herr : folder.has_error_marker = false)
    (hproc : folder.has_processing_marker = false)
    (htask : folder.task = some t)
    (haction : t.info_action.getD "" = "" ∨ t.info_action.getD "" = "both" ∨
      t.info_action.getD "" = "route")
    (hd : t.dispatch = some d) (hst : d.has_status_key = true) :
    restart_dispatch folder =
      RestartOutcome.restarted
        { t with dispatch := some { d with retries := some JVal.null
                                           next_retry_at := some JVal.null }
                 fail_stage := if t.has_info && t.has_fail_stage_key then
                                 some JVal.null
                               else t.fail_stage }
        true ∧
    ({ d with retries := some JVal.null
              next_retry_at := some JVal.null } : DispatchSection).status =
      d.status := by
  refine ⟨?_, rfl⟩
  unfold restart_dispatch
  rcases haction with h | h | h <;>
    simp [hlock, herr, hproc, htask, h, hd, hst]

/-- Witness for C6 at a concrete dispatch-failed task with one completed and
one failed target. -/
theorem c6_restart_dispatch_behavior_witness :
    restart_dispatch
        { task := some
            { info_action := some "route"
              has_info := true
              has_fail_stage_key := true
              fail_stage := some (JVal.str "dispatching")
              dispatch := some
                { has_status_key := true
                  status := [("T1", { state := some (JVal.str "complete") }),
                             ("T2", { state := some (JVal.str "error")
                                      retries := some (JVal.num 5)
                                      next_retry_at := some (JVal.num 99) })] } } } =
      RestartOutcome.restarted
        { info_action := some "route"
          has_info := true
          has_fail_stage_key := true
          fail_stage := some JVal.null
          dispatch := some
            { has_status_key := true
              status := [("T1", { state := some (JVal.str "complete") }),
                         ("T2", { state := some (JVal.str "error")
                                  retries := some (JVal.num 5)
                                  next_retry_at := some (JVal.num 99) })]
              retries := some JVal.null
              next_retry_at := some JVal.null } }
        true :=
  (c6_restart_dispatch_behavior _
    { info_action := some "route"
      has_info := true
      has_fail_stage_key := true
      fail_stage := some (JVal.str "dispatching")
      dispatch := some
        { has_status_key := true
          status := [("T1", { state := some (JVal.str "complete") }),
                     ("T2", { state := some (JVal.str "error")
                              retries := some (JVal.num 5)
                              next_retry_at := some (JVal.num 99) })] } }
    { has_status_key := true
      status := [("T1", { state := some (JVal.str "complete") }),
                 ("T2", { state := some (JVal.str "error")
                          retries := some (JVal.num 5)
                          next_retry_at := some (JVal.num 99) })] }
    rfl rfl rfl rfl (Or.inr (Or.inr rfl)) rfl rfl).1

/-- C6 counterexample: at a concrete dispatch-failed task whose only target
carries retries 5, restart_dispatch writes a task whose dispatch.status
entry still carries retries 5 and next_retry_at 12345 while null values
land in the dispatch-level retries and next_retry_at keys; the per-target
retry state claimed to be reset is not reset. -/
theorem c6_counterexample :
    restart_dispatch
        { task := some
            { info_action := some "route"
              has_info := true
              has_fail_stage_key := true
              fail_stage := some (JVal.str "dispatching")
              dispatch := some
                { has_status_key := true
                  status := [("T1", { state := some (JVal.str "error")
                                      retries := some (JVal.num 5)
                                      next_retry_at := some (JVal.num 12345) })] } } } =
      RestartOutcome.restarted
        { info_action := some "route"
          has_info := true
          has_fail_stage_key := true
          fail_stage := some JVal.null
          dispatch := some
            { has_status_key := true
              status := [("T1", { state := some (JVal.str "error")
                                  retries := some (JVal.num 5)
                                  next_retry_at := some (JVal.num 12345) })]
              retries := some JVal.null
              next_retry_at := some JVal.null } }
        true ∧
    ¬ (∀ entry ∈ [("T1", ({ state := some (JVal.str "error")
                            retries := some (JVal.num 5)
                            next_retry_at := some (JVal.num 12345) } : TargetStatus))],
        (entry.2.retries = some JVal.null ∨ entry.2.retries = none) ∧
        (entry.2.next_retry_at = some JVal.null ∨
          entry.2.next_retry_at = none)) := by
  decide

/-- The studies scan finds a match exactly when some directory entry holds
a readable task file with the patient's mrn. -/
theorem studies_mrn_scan_found_iff (pid : String) :
    ∀ studies : List StudiesEntry,
      (studies_mrn_scan pid studies).1 = true ↔
        ∃ e ∈ studies, e.is_dir = true ∧ e.task_mrn = some pid
  | [] => by simp [studies_mrn_scan]
  | e :: rest => by
    have ih := studies_mrn_scan_found_iff pid rest
    by_cases hdir : e.is_dir = true
    · cases hm : e.task_mrn with
      | none => simp [studies_mrn_scan, hdir, hm, ih]
      | some mrn =>
        by_cases heq : (mrn == pid) = true
        · have hmp : mrn = pid := by simpa using heq
          subst hmp
          simp [studies_mrn_scan, hdir, hm]
        · have hne : mrn ≠ pid := by simpa using heq
          simp [studies_mrn_scan, hdir, hm, hne, ih]
    · have hdirf : e.is_dir = false := by simpa using hdir
      simp [studies_mrn_scan, hdirf, ih]

/-- When no study matches, the scan has opened the task file of every
directory entry of studies/. -/
theorem studies_mrn_scan_reads_all (pid : String) :
    ∀ studies : List StudiesEntry,
      (studies_mrn_scan pid studies).1 = false →
      (studies_mrn_scan pid studies).2 =
        (studies.filter (fun e => e.is_dir)).map StudiesEntry.name
  | [] => by simp [studies_mrn_scan]
  | e :: rest => by
    intro hnf
    have ih := studies_mrn_scan_reads_all pid rest
    by_cases hdir : e.is_dir = true
    · cases hm : e.task_mrn with
      | none =>
        simp only [studies_mrn_scan, hdir, hm, Bool.not_true,
          Bool.false_eq_true, if_false] at hnf ⊢
        simp [List.filter_cons, hdir, ih hnf]
      | some mrn =>
        by_cases heq : (mrn == pid) = true
        · simp only [studies_mrn_scan, hdir, hm, heq, Bool.not_true,
            Bool.false_eq_true, if_false, if_true] at hnf
          cases hnf
        · simp only [studies_mrn_scan, hdir, hm, heq, Bool.not_true,
            Bool.false_eq_true, if_false] at hnf ⊢
          simp [List.filter_cons, hdir, ih hnf]
    · have hdirf : e.is_dir = false := by simpa using hdir
      simp only [studies_mrn_scan, hdirf, Bool.not_false, if_true] at hnf ⊢
      simp [List.filter_cons, hdirf, ih hnf]

/-- Under a timeout trigger with no force completion, is_patient_complete
reduces to check_patient_timeout. -/
theorem is_patient_complete_timeout_eq
    (cfg now : Nat) (folder : PatientFolder) (studies : List StudiesEntry)
    (ev : String → List String → Bool) (task : PatientTask)
    (htask : folder.task = some task)
    (htrig : task.patient.complete_trigger = some "timeout")
    (hforce : task.patient.complete_force ≠ some true)
    (hmarker : folder.has_force_complete_marker = false) :
    is_patient_complete cfg now folder studies ev =
      (check_patient_timeout cfg now task studies).1 := by
  have hforceb : (task.patient.complete_force == some true) = false := by
    cases hcf : task.patient.complete_force with
    | none => rfl
    | some b => cases b
                · rfl
                · exact absurd hcf hforce
  unfold is_patient_complete
  simp [htask, hforceb, hmarker, htrig]

/-- C8 (amended): a patient aggregate with timeout trigger and no force
completion is not completed, regardless of how much time has elapsed since
its last_receive_time, while any directory entry of studies/ holds a
readable task file whose info.mrn equals the patient's patient_id; the
check opens task files fresh from disk on every invocation, in directory
order up to the first match, and whenever the patient is judged complete it
has opened the task file of every study folder in studies/. -/
theorem c8_patient_timeout_waits
    (cfg now : Nat) (folder : PatientFolder) (studies : List StudiesEntry)
    (ev : String → List String → Bool) (task : PatientTask)
    (htask : folder.task = some task)
    (htrig : task.patient.complete_trigger = some "timeout")
    (hforce : task.patient.complete_force ≠ some true)
    (hmarker : folder.has_force_complete_marker = false) :
    ((∃ e ∈ studies, e.is_dir = true ∧
        e.task_mrn = some task.patient.patient_id) →
      is_patient_complete cfg now folder studies ev = false) ∧
    (is_patient_complete cfg now folder studies ev = true →
      (check_patient_timeout cfg now task studies).2 =
        (studies.filter (fun e => e.is_dir)).map StudiesEntry.name) := by
  rw [is_patient_complete_timeout_eq cfg now folder studies ev task htask
    htrig hforce hmarker]
  constructor
  · intro hex
    have hfound : (studies_mrn_scan task.patient.patient_id studies).1 =
        true := (studies_mrn_scan_found_iff _ _).mpr hex
    unfold check_patient_timeout
    cases hlr : task.patient.last_receive_time with
    | none => rfl
    | some t =>
      by_cases ht : now > t + cfg
      · simp [ht, hfound]
      · simp [ht]
  · intro hcomp
    unfold check_patient_timeout at hcomp ⊢
    cases hlr : task.patient.last_receive_time with
    | none => rw [hlr] at hcomp; cases hcomp
    | some t =>
      rw [hlr] at hcomp
      dsimp only at hcomp ⊢
      by_cases ht : now > t + cfg
      · rw [if_pos ht] at hcomp ⊢
        have hreads := studies_mrn_scan_reads_all task.patient.patient_id
          studies (by simpa using hcomp)
        simpa using hreads
      · rw [if_neg ht] at hcomp
        cases hcomp

/-- Witness for C8 at a concrete patient whose timeout has long passed but
whose mrn still matches a study folder in studies/. -/
theorem c8_patient_timeout_waits_witness :
    is_patient_complete 300 10000
        { task := some { id := "p1"
                         patient := { patient_id := "123"
                                      last_receive_time := some 1000
                                      complete_trigger := some "timeout" } } }
        [{ name := "s1", is_dir := true, task_mrn := some "123" },
         { name := "s2", is_dir := true, task_mrn := some "777" }]
        (fun _ _ => false) = false :=
  (c8_patient_timeout_waits 300 10000 _
    [{ name := "s1", is_dir := true, task_mrn := some "123" },
     { name := "s2", is_dir := true, task_mrn := some "777" }]
    (fun _ _ => false)
    { id := "p1"
      patient := { patient_id := "123"
                   last_receive_time := some 1000
                   complete_trigger := some "timeout" } }
    rfl rfl (by decide) rfl).1
    ⟨{ name := "s1", is_dir := true, task_mrn := some "123" },
      by decide, rfl, rfl⟩

/-- C8 counterexample: with the matching study listed first, the blocked
check stops at the first match and never opens the second study folder's
task file, so the check does not re-read the task file of every study folder
in studies/ as the claim states (it does block completion). -/
theorem c8_counterexample :
    (check_patient_timeout 300 10000
        { id := "p1"
          patient := { patient_id := "123"
                       last_receive_time := some 1000
                       complete_trigger := some "timeout" } }
        [{ name := "s1", is_dir := true, task_mrn := some "123" },
         { name := "s2", is_dir := true, task_mrn := some "777" }]).1 =
      false ∧
    ¬ ("s2" ∈ (check_patient_timeout 300 10000
        { id := "p1"
          patient := { patient_id := "123"
                       last_receive_time := some 1000
                       complete_trigger := some "timeout" } }
        [{ name := "s1", is_dir := true, task_mrn := some "123" },
         { name := "s2", is_dir := true, task_mrn := some "777" }]).2) := by
  decide

/-- SQL equality of nullable strings is true exactly when both are the same
non-null value. -/
theorem sqlEqStr_iff (a b : Option String) :
    sqlEqStr a b = true ↔ ∃ v, a = some v ∧ b = some v := by
  cases a <;> cases b <;> simp [sqlEqStr]
  exact eq_comm

/-- C9 (amended): the hierarchical (empty group_by) find_task view returns
exactly the top-level patient tasks together with the study tasks for which
no patient task with the same MRN exists anywhere in the tasks table: the
NOT EXISTS filter of the source carries no time window, so a same-MRN
patient task at any time, inside or outside the ten-minutes-before to
five-minutes-after window, suppresses the study from the top level. -/
theorem c9_hierarchical_promotion (db : List TaskRow) (r : TaskRow) :
    r ∈ find_task_hierarchical db ↔
      r ∈ db ∧ r.parent_id = none ∧
        (r.uid_type = some "patient" ∨
          (r.uid_type = some "study" ∧
            ¬ ∃ pt ∈ db, pt.uid_type = some "patient" ∧ ∃ mval,
              pt.mrn = some mval ∧
              sqlCoalesce r.mrn r.tag_patientid = some mval)) := by
  unfold find_task_hierarchical shown_hierarchical
  rw [List.mem_filter]
  simp only [Bool.and_eq_true, Bool.or_eq_true, beq_iff_eq,
    Bool.not_eq_true', List.any_eq_false, sqlEqStr_iff]
  constructor
  · rintro ⟨hmem, hpar, hrest⟩
    refine ⟨hmem, hpar, ?_⟩
    rcases hrest with h | ⟨hstudy, hnone⟩
    · exact Or.inl h
    · refine Or.inr ⟨hstudy, ?_⟩
      rintro ⟨pt, hpt, hptype, mval, hmrn, hco⟩
      have hthis := hnone pt hpt
      simp only [hptype, true_and, not_exists, not_and] at hthis
      exact hthis mval hmrn hco
  · rintro ⟨hmem, hpar, hrest⟩
    refine ⟨hmem, hpar, ?_⟩
    rcases hrest with h | ⟨hstudy, hnone⟩
    · exact Or.inl h
    · refine Or.inr ⟨hstudy, ?_⟩
      intro pt hpt
      by_cases hptype : pt.uid_type = some "patient"
      · rw [hptype]
        simp only [true_and]
        by_cases hex : ∃ v, pt.mrn = some v ∧
            sqlCoalesce r.mrn r.tag_patientid = some v
        · rcases hex with ⟨v, hv1, hv2⟩
          exact absurd ⟨pt, hpt, hptype, v, hv1, hv2⟩ hnone
        · simpa using hex
      · simp [hptype]

/-- C9 counterexample: a study task at time 0 whose only same-MRN patient
task sits at time -1200, twenty minutes earlier and outside the
ten-minutes-before to five-minutes-after window; the claim says the study
is promoted to the top level, but the hierarchical filter suppresses it
because its NOT EXISTS ignores time entirely. -/
theorem c9_counterexample :
    ¬ (({ row_id := 1, parent_id := none, uid_type := some "study"
          mrn := some "123", tag_patientid := none, time := 0 } : TaskRow) ∈
        find_task_hierarchical
          [{ row_id := 1, parent_id := none, uid_type := some "study"
             mrn := some "123", tag_patientid := none, time := 0 },
           { row_id := 2, parent_id := none, uid_type := some "patient"
             mrn := some "123", tag_patientid := none, time := -1200 }] ↔
      ¬ ∃ pt ∈
          ([{ row_id := 1, parent_id := none, uid_type := some "study"
              mrn := some "123", tag_patientid := none, time := 0 },
            { row_id := 2, parent_id := none, uid_type := some "patient"
              mrn := some "123", tag_patientid := none,
              time := -1200 }] : List TaskRow),
        pt.uid_type = some "patient" ∧
        sqlEqStr pt.mrn (sqlCoalesce (some "123") none) = true ∧
        (0 : Int) - 600 ≤ pt.time ∧ pt.time ≤ (0 : Int) + 300) := by
  decide

end Mercure
